import Mathlib

/-!
Verification de la specification de walkngo (Go → C translator).

This file gives a shallow embedding of the repository's code:
* `printer/cprinter.go` — the `CPrinter` backend: a state machine over
  `CPrinter` (indentation level, same-line flag, the `CContext` chain, the
  text written to the `io.Writer`).  Go's `*CContext` chain is a
  `List CContext` whose head is the current context (`nil` = `[]`).
  Runtime panics (nil dereference, out-of-range index, negative repeat
  count) are modelled by the `aborted` flag; no operation ever clears it.
* `walker/walker.go` — the `GoWalker` traversal over a deep embedding of
  the `go/ast` node kinds the walker dispatches on (`GNode`, `GExpr`,
  `GField`), with the walker's buffer / flush-mode / stdout state.

Machine integers: the counters (`iota`, `deferred`) only ever increase by
1 from 0 and Go's 64-bit overflow is unreachable for any input the claims
quantify over, so they are plain `Nat`; the indentation `level` is a Go
`int` that could in principle go negative, so it is `Int`.  `minlevel` is
instrumentation (not a Go field): it records the least value ever assigned
to `level`, so that "the indentation level is never negative" is statable
about a completed run.

Strings are ASCII in every input considered, so Go byte indices coincide
with `Char` list indices.
-/

/-! ## Go string helpers (semantics of the `strings` package functions used) -/

/-- `strings.Contains(s, pat)` for a single-character pattern. -/
def containsChar (s : String) (c : Char) : Bool := s.data.contains c

def findSubAux (pat : List Char) : List Char → Nat → Option Nat
  | [], i => if pat.isEmpty then some i else none
  | l@(_ :: xs), i => if pat.isPrefixOf l then some i else findSubAux pat xs (i + 1)

/-- First index at which `pat` occurs in `s`. -/
def findSubIdx (s pat : String) : Option Nat := findSubAux pat.data s.data 0

/-- `strings.Contains(s, pat)`. -/
def containsSub (s pat : String) : Bool := (findSubIdx s pat).isSome

/-- `strings.HasPrefix(s, pre)`. -/
def goStartsWith (s pre : String) : Bool := pre.data.isPrefixOf s.data

/-- `strings.HasSuffix(s, suf)`. -/
def goEndsWith (s suf : String) : Bool := suf.data.isSuffixOf s.data

/-- `strings.TrimRight(s, cutset)`: drop trailing characters that occur in `cutset`. -/
def trimRightCut (s cutset : String) : String :=
  ⟨(s.data.reverse.dropWhile (fun c => cutset.data.contains c)).reverse⟩

/-- `unicode.IsSpace` restricted to ASCII (all inputs considered are ASCII). -/
def goIsSpace (c : Char) : Bool :=
  c = ' ' || c = '\t' || c = '\n' || c = '\r' || c = '\x0b' || c = '\x0c'

/-- `strings.TrimSpace(s)`. -/
def trimSpace (s : String) : String :=
  ⟨((s.data.dropWhile goIsSpace).reverse.dropWhile goIsSpace).reverse⟩

/-- `strings.Repeat(s, n)` for a non-negative count. -/
def goRepeat (s : String) (n : Nat) : String := String.join (List.replicate n s)

/-- Go slice `s[i:]`. -/
def substrFrom (s : String) (i : Nat) : String := ⟨s.data.drop i⟩

/-- Go slice `s[:i]`. -/
def substrTo (s : String) (i : Nat) : String := ⟨s.data.take i⟩

/-- Character at byte index `i`, if in range. -/
def charAt? (s : String) (i : Nat) : Option Char := s.data.get? i

def lastIndexChAux (c : Char) : List Char → Nat → Int → Int
  | [], _, acc => acc
  | x :: xs, i, acc => lastIndexChAux c xs (i + 1) (if x = c then (i : Int) else acc)

/-- `strings.LastIndex(s, c)` for a single-character pattern; `-1` when absent. -/
def lastIndexCh (s : String) (c : Char) : Int := lastIndexChAux c s.data 0 (-1)

/-- `strings.SplitN(s, sep, 2)` for a single-character separator: one or two pieces. -/
def splitN2 (s : String) (sep : Char) : List String :=
  match s.data.findIdx? (· = sep) with
  | none => [s]
  | some i => [⟨s.data.take i⟩, ⟨s.data.drop (i + 1)⟩]

/-- `strings.IndexAny(s, chars)`: first index of any character of `chars`, `-1` when none. -/
def indexAny (s chars : String) : Int :=
  match s.data.findIdx? (fun c => chars.data.contains c) with
  | some i => (i : Int)
  | none => -1

/-- `fmt.Sprintf(tmpl, arg)` as used by the repository: the template holds one
`%s` verb, which is replaced by `arg` (the template is returned unchanged when
the verb is absent; no caller reaches that corner). -/
def sprintf1 (tmpl arg : String) : String :=
  match findSubIdx tmpl "%s" with
  | some i => substrTo tmpl i ++ arg ++ substrFrom tmpl (i + 2)
  | none => tmpl

/-! ## cprinter.go: constants and free functions -/

/-- Constants of cprinter.go. -/
def NIL : String := "nil"

def NULL : String := "nullptr"

def IOTA : String := "iota"

/-- Modelled from the spec: the shared constants of the Printer contract
(`printer.go` is not under src/; the values are forced by their uses —
`SEMI` terminates statements, `Chop` must strip the `", "` separators that
`FormatPair` appends, `UP`/`DOWN` appear in `src/unnamed/part_000`). -/
def NONE : String := ""

def NL : String := "\n"

def SEMI : String := ";\n"

def COMMA : String := ", "

def UP : Int := 1

def DOWN : Int := -1

/-- Modelled from the spec: the block kinds of the Printer contract
(`printer.go` is not under src/); `PrintBlockStart`/`PrintBlockEnd`
distinguish exactly the constant/variable groups from code blocks. -/
inductive BlockType where
  | CONST
  | VAR
  | CODE
deriving Repr, DecidableEq

/-- Modelled from the spec: the field kinds of the Printer contract
(`printer.go` is not under src/); `FormatPair` branches on exactly these. -/
inductive FieldType where
  | METHOD
  | RESULT
  | PARAM
  | FIELD
deriving Repr, DecidableEq

/-- Modelled from the spec: the `Pair` of the Printer contract (`printer.go`
is not under src/) — a named value, as consumed by `FormatPair` through its
`Name()` and `Value()` accessors. -/
structure Pair where
  name : String
  value : String
deriving Repr, DecidableEq

/-- cprinter.go `getIdentifier`. -/
def getIdentifier (s : String) : String :=
  match s.data.findIdx? (fun c => c = '<' || c = '[') with
  | some i => ⟨s.data.take i⟩
  | none => s

def matchClosing : Char → Char
  | '<' => '>'
  | '[' => ']'
  | '\x7b' => '\x7d'
  | '(' => ')'
  | _ => '\x00'

def findMatchAux (ch closing : Char) : List Char → Nat → Int → Option Nat
  | [], _, _ => none
  | c :: rest, p, cnt =>
    if c = ch then findMatchAux ch closing rest (p + 1) (cnt + 1)
    else if c = closing then
      if cnt - 1 = 0 then some p else findMatchAux ch closing rest (p + 1) (cnt - 1)
    else findMatchAux ch closing rest (p + 1) cnt

/-- cprinter.go `findMatch`: index of the closing character matching the first
`ch`, with nesting; Go's `(0, false)` is `none`. -/
def findMatch (s : String) (ch : Char) : Option Nat :=
  match s.data.findIdx? (· = ch) with
  | none => none
  | some opn => findMatchAux ch (matchClosing ch) (s.data.drop opn) opn 0

/-- cprinter.go `GuessType`: guess type and return type and new value. -/
def GuessType (value : String) : String × String :=
  match value.data with
  | [] => ("auto", value)
  | c0 :: _ =>
    if c0 = '\'' then ("char", value)
    else if c0 = '"' then ("string", value)
    else if containsChar "0123456789." c0 then
      if containsChar value '.' || containsChar value 'E' then ("float64", value)
      else ("int", value)
    else if value = "true" || value = "false" then ("bool", value)
    else if value = NIL || value = NULL then ("void*", value)
    else
      -- the `strings.HasPrefix(value, "make(")` branch of the source has an
      -- empty body and no effect
      match (if goStartsWith value "map<" then findMatch value '<' else none) with
      | some pt => (substrTo value (pt + 1), value)
      | none =>
        let i := indexAny value "[(\x7b"
        match (if 0 ≤ i && charAt? value i.toNat = some '[' then findMatch value '[' else none) with
        | some pt => (substrTo value (pt + 1), value)
        | none => ("auto", value)

/-- cprinter.go `IsMultiValue`. -/
def IsMultiValue (expr : String) : Bool := containsChar expr ','

/-! ## cprinter.go: the CContext chain and the CPrinter state -/

/-- cprinter.go `CContext`, the context for a (function) block; the `next`
pointer becomes the tail position in the `CPrinter.ctx` list. -/
structure CContext where
  iota : Nat
  deferred : Nat
  receiver : String
  ret_definitions : String
  ret_values : String
deriving Repr, DecidableEq

/-- A freshly allocated `&CContext{}`: Go zero values. -/
def CContext.fresh : CContext :=
  { iota := 0, deferred := 0, receiver := "", ret_definitions := "", ret_values := "" }

/-- cprinter.go `CContext.Selector`: the method is callable on a nil receiver
(`none`), which Go permits because the body checks `ctx != nil` first. -/
def CContext.Selector : Option CContext → String → String
  | some ctx, s => if ctx.receiver = s then "this->" else s ++ "."
  | none, s => s ++ "."

/-- cprinter.go `CPrinter`: `out` is the text written to `p.w`; `aborted`
records a Go runtime panic; `minlevel` is instrumentation (least value ever
assigned to `level`). -/
structure CPrinter where
  level : Int
  minlevel : Int
  sameline : Bool
  ctx : List CContext
  out : String
  aborted : Bool
deriving Repr, DecidableEq

/-- A Go runtime panic. -/
def CPrinter.panicked (p : CPrinter) : CPrinter := { p with aborted := true }

/-- cprinter.go `CPrinter.Reset`. -/
def CPrinter.Reset (p : CPrinter) : CPrinter :=
  { p with level := 0, minlevel := min p.minlevel 0, sameline := false, ctx := [] }

/-- cprinter.go `CPrinter.PushContext`. -/
def CPrinter.PushContext (p : CPrinter) : CPrinter :=
  { p with ctx := CContext.fresh :: p.ctx }

/-- cprinter.go `CPrinter.PopContext` (`p.ctx.next` on a nil chain panics). -/
def CPrinter.PopContext (p : CPrinter) : CPrinter :=
  match p.ctx with
  | [] => p.panicked
  | _ :: rest => { p with ctx := rest }

/-- cprinter.go `CPrinter.UpdateLevel`. -/
def CPrinter.UpdateLevel (p : CPrinter) (delta : Int) : CPrinter :=
  { p with level := p.level + delta, minlevel := min p.minlevel (p.level + delta) }

/-- cprinter.go `CPrinter.SameLine`. -/
def CPrinter.SameLine (p : CPrinter) : CPrinter := { p with sameline := true }

/-- cprinter.go `CPrinter.Chop` (the receiver is unused in the source). -/
def Chop (line : String) : String := trimRightCut line COMMA

/-- cprinter.go `CPrinter.indent` (`strings.Repeat` panics on a negative count). -/
def CPrinter.indent (p : CPrinter) : String × CPrinter :=
  if p.sameline then ("", { p with sameline := false })
  else if p.level < 0 then ("", p.panicked)
  else (goRepeat "  " p.level.toNat, p)

/-- cprinter.go `CPrinter.Print`. -/
def CPrinter.Print (p : CPrinter) (values : List String) : CPrinter :=
  { p with out := p.out ++ String.intercalate " " values }

/-- cprinter.go `CPrinter.PrintLevel`. -/
def CPrinter.PrintLevel (p : CPrinter) (term : String) (values : List String) : CPrinter :=
  let ip := p.indent
  { ip.2 with out := ip.2.out ++ ip.1 ++ String.intercalate " " values ++ term }

/-- cprinter.go `CPrinter.PrintBlockStart` (for a `CODE` block the source
dereferences `p.ctx`, a panic when the chain is nil). -/
def CPrinter.PrintBlockStart (p : CPrinter) (b : BlockType) : CPrinter :=
  let opn : String := match b with
    | .CONST => "("
    | .VAR => "("
    | .CODE => "\x7b"
  let p1 := (p.PrintLevel NL [opn]).UpdateLevel UP
  -- `if b == CODE && len(p.ctx.ret_definitions) > 0`: the `&&` short-circuits,
  -- so only a CODE block dereferences the context chain
  if b = .CODE then
    match p1.ctx with
    | [] => p1.panicked
    | c :: rest =>
      if c.ret_definitions.length > 0 then
        let p2 := p1.PrintLevel NL [c.ret_definitions]
        { p2 with ctx := { c with ret_definitions := "" } :: rest }
      else p1
  else p1

/-- cprinter.go `CPrinter.PrintBlockEnd`. -/
def CPrinter.PrintBlockEnd (p : CPrinter) (b : BlockType) : CPrinter :=
  let close : String := match b with
    | .CONST => ")"
    | .VAR => ")"
    | .CODE => "\x7d"
  (p.UpdateLevel DOWN).PrintLevel NONE [close]

/-- cprinter.go `CPrinter.PrintPackage`. -/
def CPrinter.PrintPackage (p : CPrinter) (name : String) : CPrinter :=
  (p.PrintLevel NL ["//package", name]).PrintLevel NL ["#include <go.h>"]

/-- cprinter.go `CPrinter.PrintImport`. -/
def CPrinter.PrintImport (p : CPrinter) (name path : String) : CPrinter :=
  let p1 := p.PrintLevel NL ["//import", name, path]
  if path = "\"fmt\"" then p1.PrintLevel NL ["#include <fmt.h>"]
  else if path = "\"sync\"" then p1.PrintLevel NL ["#include <sync.h>"]
  else if path = "\"errors\"" then p1.PrintLevel NL ["#include <errors.h>"]
  else if path = "\"time\"" then p1.PrintLevel NL ["#include <go_time.h>"]
  else p1

/-- cprinter.go `CPrinter.PrintType`. -/
def CPrinter.PrintType (p : CPrinter) (name typedef : String) : CPrinter :=
  if containsChar typedef '%' then
    p.PrintLevel SEMI ["typedef", sprintf1 typedef ("(" ++ name ++ ")")]
  else
    p.PrintLevel SEMI ["typedef", typedef, name]

/-- cprinter.go `CPrinter.FormatIdent` (`p.ctx.iota` on a nil chain panics). -/
def CPrinter.FormatIdent (p : CPrinter) (id : String) : String × CPrinter :=
  if id = NIL then (NULL, p)
  else if id = IOTA then
    match p.ctx with
    | [] => ("", p.panicked)
    | c :: rest => (toString c.iota, { p with ctx := { c with iota := c.iota + 1 } :: rest })
  else if id = "string" then ("std::string", p)
  else (id, p)

/-- cprinter.go `CPrinter.PrintValue`. -/
def CPrinter.PrintValue (p : CPrinter) (vtype0 typedef0 names0 values0 : String)
    (ntuple vtuple : Bool) : CPrinter :=
  let step1 : String × String × CPrinter :=
    if vtype0 = "var" then ("", values0, p)
    else if vtype0 = "const" && values0.length = 0 then
      let fp := p.FormatIdent IOTA
      (vtype0, fp.1, fp.2)
    else (vtype0, values0, p)
  let vtype := step1.1
  let p1 := step1.2.2
  let step2 : String × String × String :=
    if typedef0.length = 0 then
      let gt := GuessType step1.2.1
      (gt.1, names0, gt.2)
    else
      match typedef0.data.findIdx? (· = '[') with
      | some i => (substrTo typedef0 i, names0 ++ substrFrom typedef0 i, step1.2.1)
      | none => (typedef0, names0, step1.2.1)
  let typedef := step2.1
  let values := step2.2.2
  let names :=
    if ntuple && values.length > 0 then "tie(" ++ step2.2.1 ++ ")" else step2.2.1
  let p2 := p1.PrintLevel NONE [vtype, typedef, names]
  let p3 :=
    if values.length > 0 then
      let v := if vtuple then "make_tuple(" ++ values ++ ")" else values
      p2.Print [" =", v]
    else p2
  p3.Print [";\n"]

/-- cprinter.go `CPrinter.PrintStmt` (the `defer` branch reads and increments
`p.ctx.deferred`, a panic when the chain is nil). -/
def CPrinter.PrintStmt (p : CPrinter) (stmt expr : String) : CPrinter :=
  if stmt = "go" then
    p.PrintLevel SEMI ["Goroutine([]()\x7b " ++ expr ++ "; \x7d)"]
  else if stmt = "defer" then
    match p.ctx with
    | [] => p.panicked
    | c :: rest =>
      let p1 := p.PrintLevel SEMI
        ["Deferred defer" ++ toString c.deferred ++ "([]()\x7b " ++ expr ++ "; \x7d)"]
      { p1 with ctx := { c with deferred := c.deferred + 1 } :: rest }
  else if stmt.length > 0 then p.PrintLevel SEMI [stmt, expr]
  else p.PrintLevel SEMI [expr]

/-- cprinter.go `CPrinter.PrintReturn` (when `expr` is empty the source reads
`p.ctx.ret_values`, a panic when the chain is nil; Go's `&&` short-circuits,
so a non-empty `expr` never dereferences the chain). -/
def CPrinter.PrintReturn (p : CPrinter) (expr0 : String) (tuple : Bool) : CPrinter :=
  let step : String × CPrinter :=
    if expr0.length = 0 then
      match p.ctx with
      | [] => (expr0, p.panicked)
      | c :: _ => if c.ret_values.length > 0 then (Chop c.ret_values, p) else (expr0, p)
    else (expr0, p)
  let expr := if tuple then "make_tuple(" ++ step.1 ++ ")" else step.1
  step.2.PrintStmt "return" expr

/-- cprinter.go `CPrinter.PrintFunc` (with a non-empty receiver the source
indexes `parts[1]`, a panic when the receiver text holds no space, and then
assigns `p.ctx.receiver`, a panic when the chain is nil). -/
def CPrinter.PrintFunc (p : CPrinter) (receiver0 name params0 results0 : String) : CPrinter :=
  if receiver0.length = 0 && params0.length = 0 && results0.length = 0 && name = "main" then
    { p with out := p.out ++ "int " ++ receiver0 ++ name ++ "(int argc, char **argv) " }
  else
    let results :=
      if results0.length = 0 then "void"
      else if IsMultiValue results0 then "tuple<" ++ results0 ++ ">"
      else results0
    if receiver0.length > 0 then
      match splitN2 receiver0 ' ' with
      | [p0, p1] =>
        let receiver := "/* " ++ p1 ++ " */ " ++ trimRightCut p0 "*" ++ "::"
        match p.ctx with
        | [] => p.panicked
        | c :: rest =>
          { p with ctx := { c with receiver := p1 } :: rest,
                   out := p.out ++ results ++ " " ++ receiver ++ name ++ "(" ++ params0 ++ ") " }
      | _ => p.panicked
    else
      { p with out := p.out ++ results ++ " " ++ receiver0 ++ name ++ "(" ++ params0 ++ ") " }

/-- cprinter.go `CPrinter.PrintFor`. -/
def CPrinter.PrintFor (p : CPrinter) (init0 cond0 post0 : String) : CPrinter :=
  let ini := trimRightCut init0 SEMI
  let post := trimRightCut post0 SEMI
  let onlycond := ini.length = 0 && post.length = 0
  let cond := if cond0.length = 0 then "true" else cond0
  let p1 :=
    if onlycond then p.PrintLevel NONE ["while (", cond]
    else
      let pa := p.PrintLevel NONE ["for ("]
      let pb := if ini.length > 0 then pa.Print [ini] else pa
      let pc := pb.Print ["; " ++ cond ++ ";"]
      if post.length > 0 then pc.Print [" " ++ post] else pc
  p1.Print [") "]

/-- cprinter.go `CPrinter.PrintSwitch`. -/
def CPrinter.PrintSwitch (p : CPrinter) (ini expr : String) : CPrinter :=
  let p1 := if ini.length > 0 then p.PrintLevel SEMI [ini] else p
  p1.PrintLevel NONE ["switch (", expr, ")"]

/-- cprinter.go `CPrinter.PrintIf`. -/
def CPrinter.PrintIf (p : CPrinter) (ini cond : String) : CPrinter :=
  let p1 :=
    if ini.length > 0 then p.PrintLevel NONE [ini ++ " if "]
    else p.PrintLevel NONE ["if "]
  p1.Print ["(", cond, ") "]

/-- cprinter.go `CPrinter.PrintElse`. -/
def CPrinter.PrintElse (p : CPrinter) : CPrinter := p.Print [" else "]

/-- cprinter.go `CPrinter.PrintEmpty`. -/
def CPrinter.PrintEmpty (p : CPrinter) : CPrinter := p.PrintLevel SEMI [""]

/-- cprinter.go `CPrinter.FormatSelector` (reads the head of the `CContext`
chain, which `CContext.Selector` accepts even when nil). -/
def CPrinter.FormatSelector (p : CPrinter) (pname sel : String) (isObject : Bool) : String :=
  if isObject then CContext.Selector p.ctx.head? pname ++ sel
  else pname ++ "::" ++ sel

/-- cprinter.go `CPrinter.FormatPair`. -/
def CPrinter.FormatPair (p : CPrinter) (v : Pair) (t : FieldType) : String × CPrinter :=
  let step1 : String × String :=
    if goEndsWith v.value "]" then
      let i := lastIndexCh v.value '['
      if i < 0 then (v.name, v.value)
      else
        let arr := substrFrom v.value i.toNat
        let value := substrTo v.value i.toNat
        if v.name.length > 0 then (v.name ++ arr, value) else (v.name, value ++ arr)
    else (v.name, v.value)
  let name := step1.1
  let value :=
    if goStartsWith step1.2 "*" then
      let i := (lastIndexCh step1.2 '*' + 1).toNat
      substrFrom step1.2 i ++ substrTo step1.2 i
    else step1.2
  let step2 : String × CPrinter :=
    if t = .METHOD then
      if name.length = 0 then ("// extends " ++ value, p)
      else ("virtual " ++ sprintf1 value name, p)
    else if t = .RESULT && name.length > 0 then
      let ret := value ++ " /* " ++ name ++ " */"
      match p.ctx with
      | c :: rest =>
        (ret, { p with ctx := { c with
            ret_definitions := c.ret_definitions ++ value ++ " " ++ name ++ ";",
            ret_values := c.ret_values ++ name ++ ", " } :: rest })
      | [] => (ret, p)
    else if t = .PARAM && containsSub value "%s" then
      (sprintf1 value name, p)
    else if t = .FIELD && name.length = 0 then
      (getIdentifier value ++ " " ++ value, p)
    else if name.length > 0 && value.length > 0 then
      (value ++ " " ++ name, p)
    else (value ++ name, p)
  if t = .METHOD || t = .FIELD then
    let ip := step2.2.indent
    (ip.1 ++ step2.1 ++ SEMI, ip.2)
  else (step2.1 ++ COMMA, step2.2)

/-! ## walker.go: the go/ast node kinds the walker dispatches on

A deep embedding of exactly the `go/ast` shapes `GoWalker.Visit` and
`GoWalker.parseExpr` (walker/walker.go) distinguish.  Nil-able children are
`Option`; a `*ast.Ident` child consumed only through its name is a `String`
(`Option String` when nil-able).  The `unknownNode` / `unknownExpr`
constructors stand for every other kind, carrying the text that Go's
`%#v` verb would print for the concrete value. -/

inductive ChanDir where
  | bidi
  | send
  | recv

mutual

inductive GExpr where
  | ident (name : String)
  | star (x : GExpr)
  | arrayType (len : Option GExpr) (elt : GExpr)
  | mapType (key value : GExpr)
  | interfaceType (methods : Option (List GField))
  | structType (fields : Option (List GField))
  | chanType (dir : ChanDir) (value : GExpr)
  | funcType (params results : Option (List GField))
  | basicLit (value : String)
  | compositeLit (type : Option GExpr) (elts : List GExpr)
  | ellipsis (elt : Option GExpr)
  | unary (op : String) (x : GExpr)
  | binary (x : GExpr) (op : String) (y : GExpr)
  | index (x idx : GExpr)
  | keyValue (key value : GExpr)
  | slice (x : GExpr) (low high max : Option GExpr)
  | selector (x : GExpr) (sel : String)
  | call (fn : GExpr) (args : List GExpr) (hasEllipsis : Bool)
  | typeAssert (x : GExpr) (type : Option GExpr)
  | paren (x : GExpr)
  | funcLit (type : GExpr) (body : GNode)
  | unknownExpr (dump : String)

inductive GField where
  | mk (names : List String) (type : GExpr)

inductive GNode where
  | file (name : String) (decls : List GNode)
  | importSpec (name : Option String) (path : String)
  | typeSpec (name : String) (type : GExpr)
  | valueSpec (names : List String) (type : Option GExpr) (values : List GExpr)
  | genDecl (tok : String) (specs : List GNode)
  | funcDecl (recv : Option (List GField)) (name : String)
      (params results : Option (List GField)) (body : GNode)
  | block (stmts : List GNode)
  | ifStmt (ini : Option GNode) (cond : GExpr) (body : GNode) (els : Option GNode)
  | forStmt (ini : Option GNode) (cond : Option GExpr) (post : Option GNode) (body : GNode)
  | switchStmt (ini : Option GNode) (tag : Option GExpr) (body : GNode)
  | typeSwitchStmt (ini : Option GNode) (assign : Option GNode) (body : GNode)
  | caseClause (list : List GExpr) (body : List GNode)
  | rangeStmt (key value : Option GExpr) (x : GExpr) (body : GNode)
  | branchStmt (tok : String) (label : Option String)
  | deferStmt (callx : GExpr)
  | goStmt (callx : GExpr)
  | returnStmt (results : List GExpr)
  | exprStmt (x : GExpr)
  | declStmt (decl : GNode)
  | assignStmt (lhs : List GExpr) (tok : String) (rhs : List GExpr)
  | incDecStmt (x : GExpr) (tok : String)
  | emptyStmt
  | unknownNode (dump : String)

end

def GField.names : GField → List String
  | .mk n _ => n

def GField.type : GField → GExpr
  | .mk _ t => t

/-! ## walker.go: helper functions -/

/-- walker.go `identString`: the Ident name or the empty string. -/
def identString : Option String → String
  | some n => n
  | none => ""

/-- walker.go `ifTrue`. -/
def ifTrue (val : String) (cond : Bool) : String := if cond then val else ""

/-- walker.go `wrapIf`. -/
def wrapIf (val : String) : String := if val.length > 0 then "(" ++ val ++ ")" else ""

/-- walker.go `parseNames`: join the identifier names with a comma-space. -/
def parseNames (v : List String) : String := String.intercalate ", " v

/-! ## walker.go: the GoWalker state -/

/-- walker.go `GoWalker`: the printer backend (whose writer is the walker's
buffer, so `p.out` is the buffer content), what `fmt.Print` has flushed to
standard output, the live-flush mode, and the current parent node. -/
structure GoWalker where
  p : CPrinter
  stdout : String
  flush : Bool
  parent : Option GNode

/-- Apply a printer operation (Go's `w.p.…` call). -/
def GoWalker.onP (w : GoWalker) (f : CPrinter → CPrinter) : GoWalker := { w with p := f w.p }

/-- walker.go `NewWalker` composed with a zero-valued `CPrinter` backend. -/
def NewWalker : GoWalker :=
  { p := { level := 0, minlevel := 0, sameline := false, ctx := [], out := "", aborted := false },
    stdout := "", flush := true, parent := none }

/-- walker.go `GoWalker.Flush`: when live, move the buffer to stdout. -/
def GoWalker.Flush (w : GoWalker) : GoWalker :=
  if w.flush && w.p.out.length > 0 then
    { w with stdout := w.stdout ++ w.p.out, p := { w.p with out := "" } }
  else w

/-- The `(pparent.(*ast.GenDecl)).Tok.String()` type assertion of the
`ValueSpec` case: the token when the saved parent is a `GenDecl`; any other
parent makes the assertion panic. -/
def genDeclTok : Option GNode → Option String
  | some (.genDecl tok _) => some tok
  | _ => none

/-- Modelled from the spec (announce-value) and from the 4-argument
`printValue` of src/unnamed/part_000: the walker's `ValueSpec` case calls
`PrintValue(vtype, names, typedef, values)` with 4 arguments, a signature no
printer under src/ declares (the `CPrinter` under src/ takes 6 parameters),
so the backend this walker compiled against is missing; rendered like
part_000: the binding kind and names, then the optional type, then the
optional initializer. -/
def CPrinter.PrintValueW (p : CPrinter) (vtype names typedef values : String) : CPrinter :=
  let p1 := p.PrintLevel NONE [vtype, names]
  let p2 := if typedef.length > 0 then p1.Print [" " ++ typedef] else p1
  let p3 := if values.length > 0 then p2.Print [" = " ++ values] else p2
  p3.Print ["\n"]

/-! ## walker.go: Visit / BufferVisit / parseExpr

`Visit` takes a possibly-nil node (`none` returns at once).  The walker's
`parent` is swapped on descent and restored on ascent; each non-nil visit
ends with `Flush`.  The `ValueSpec` case type-asserts the saved parent to
`*ast.GenDecl` — on any other parent Go panics, modelled by `panicked`.
`parseExprTexts` / `parseFieldTexts` are the accumulation loops of
`parseExprList` / `parseFieldList`; the joined wrappers are defined after
the mutual block. -/

theorem list_sizeOf_pos {α : Type} [SizeOf α] (l : List α) : 0 < sizeOf l := by
  cases l <;> simp

set_option maxHeartbeats 1600000

mutual

def Visit : Option GNode → GoWalker → GoWalker
  | none, w => w
  | some n, w =>
    let pparent := w.parent
    let w1 := { w with parent := some n }
    let w2 :=
      match n with
      | .file name decls =>
        visitList decls (w1.onP (fun p => p.PrintPackage name))
      | .importSpec name path =>
        w1.onP (fun p => p.PrintImport (identString name) path)
      | .typeSpec name ty =>
        let r := parseExpr (some ty) w1
        r.2.onP (fun p => p.PrintType name r.1)
      | .valueSpec names ty vals =>
        match genDeclTok pparent with
        | some tok =>
          let nm := parseNames names
          let rt := parseExpr ty w1
          let rv := parseExprTexts vals rt.2
          rv.2.onP (fun p => p.PrintValueW tok nm rt.1 (String.intercalate ", " rv.1))
        | none => w1.onP CPrinter.panicked
      | .genDecl _ specs =>
        visitList specs w1
      | .funcDecl recv name params results body =>
        let rr := parseFieldList recv ", " w1
        let rp := parseFieldList params ", " rr.2
        let rs := parseFieldList results ", " rp.2
        let wa := rs.2.onP (fun p => p.PrintFunc rr.1 name rp.1 rs.1)
        let wb := Visit (some body) wa
        wb.onP (fun p => p.Print ["\n"])
      | .block stmts =>
        let wa := (w1.onP (fun p => p.PrintLevel "\x7b\n" [])).onP (fun p => p.UpdateLevel UP)
        let wb := visitList stmts wa
        (wb.onP (fun p => p.UpdateLevel DOWN)).onP (fun p => p.PrintLevel "\x7d" [])
      | .ifStmt ini cond body els =>
        let ri := BufferVisit ini w1
        let rc := parseExpr (some cond) ri.2
        let wa := rc.2.onP (fun p => p.PrintIf ri.1 rc.1)
        let wb := Visit (some body) wa
        let wc :=
          match els with
          | some e => Visit (some e) ((wb.onP CPrinter.SameLine).onP CPrinter.PrintElse)
          | none => wb
        wc.onP (fun p => p.Print ["\n"])
      | .forStmt ini cond post body =>
        let ri := BufferVisit ini w1
        let rc := parseExpr cond ri.2
        let rp := BufferVisit post rc.2
        let wa := rp.2.onP (fun p => p.PrintFor ri.1 rc.1 rp.1)
        let wb := Visit (some body) wa
        wb.onP (fun p => p.Print ["\n"])
      | .switchStmt ini tag body =>
        let ri := BufferVisit ini w1
        let rt := parseExpr tag ri.2
        let wa := rt.2.onP (fun p => p.PrintSwitch ri.1 rt.1)
        let wb := Visit (some body) wa
        wb.onP (fun p => p.Print ["\n"])
      | .typeSwitchStmt ini assign body =>
        let ri := BufferVisit ini w1
        let ra := BufferVisit assign ri.2
        let wa := ra.2.onP (fun p => p.PrintSwitch ri.1 ra.1)
        let wb := Visit (some body) wa
        wb.onP (fun p => p.Print ["\n"])
      | .caseClause list body =>
        let wa :=
          if list.length > 0 then
            let rl := parseExprTexts list w1
            rl.2.onP (fun p => p.PrintLevel "case" [String.intercalate ", " rl.1, ":", "\n"])
          else
            w1.onP (fun p => p.PrintLevel "default:" ["\n"])
        let wb := visitList body (wa.onP (fun p => p.UpdateLevel UP))
        wb.onP (fun p => p.UpdateLevel DOWN)
      | .rangeStmt key value x body =>
        let rk := parseExpr key w1
        let rv := parseExpr value rk.2
        let rx := parseExpr (some x) rv.2
        let wa := rx.2.onP (fun p => p.PrintLevel "for" [rk.1, ",", rv.1, ":= range", rx.1])
        let wb := Visit (some body) wa
        wb.onP (fun p => p.Print ["\n"])
      | .branchStmt tok label =>
        w1.onP (fun p => p.PrintStmt tok (identString label))
      | .deferStmt callx =>
        let r := parseExpr (some callx) w1
        r.2.onP (fun p => p.PrintStmt "defer" r.1)
      | .goStmt callx =>
        let r := parseExpr (some callx) w1
        r.2.onP (fun p => p.PrintStmt "go" r.1)
      | .returnStmt results =>
        let r := parseExprTexts results w1
        r.2.onP (fun p => p.PrintStmt "return" (String.intercalate ", " r.1))
      | .exprStmt x =>
        let r := parseExpr (some x) w1
        r.2.onP (fun p => p.PrintLevel r.1 ["\n"])
      | .declStmt decl =>
        Visit (some decl) w1
      | .assignStmt lhs tok rhs =>
        let rl := parseExprTexts lhs w1
        let rr := parseExprTexts rhs rl.2
        rr.2.onP (fun p => p.PrintLevel (String.intercalate ", " rl.1)
          [tok, String.intercalate ", " rr.1, "\n"])
      | .incDecStmt x tok =>
        let r := parseExpr (some x) w1
        r.2.onP (fun p => p.PrintLevel (r.1 ++ tok) [" "])
      | .emptyStmt =>
        w1.onP CPrinter.PrintEmpty
      | .unknownNode dump =>
        w1.onP (fun p => p.Print ["/* Node: " ++ dump ++ " */\n"])
    let w3 := w2.Flush
    { w3 with parent := pparent }
  termination_by n _ => (sizeOf n, 1)

def visitList : List GNode → GoWalker → GoWalker
  | [], w => w
  | n :: ns, w => visitList ns (Visit (some n) w)
  termination_by l _ => (sizeOf l, 1)
  decreasing_by
  all_goals simp_wf
  all_goals apply Prod.Lex.left
  all_goals have h1 : 0 < sizeOf ns := list_sizeOf_pos ns
  all_goals omega

def BufferVisit (node : Option GNode) (w : GoWalker) : String × GoWalker :=
  let w1 := w.Flush
  let prev := w1.flush
  let w2 := Visit node { w1 with flush := false }
  let w3 := { w2 with flush := prev }
  let ret := trimSpace w3.p.out
  if w3.flush then (ret, { w3 with p := { w3.p with out := "" } }) else (ret, w3)
  termination_by (sizeOf node, 2)

def parseExpr : Option GExpr → GoWalker → String × GoWalker
  | none, w => ("", w)
  | some e, w =>
    match e with
    | .ident name => (name, w)
    | .star x =>
      let r := parseExpr (some x) w
      ("*" ++ r.1, r.2)
    | .arrayType len elt =>
      let rl := parseExpr len w
      let re := parseExpr (some elt) rl.2
      ("[" ++ rl.1 ++ "]" ++ re.1, re.2)
    | .mapType key value =>
      let rk := parseExpr (some key) w
      let rv := parseExpr (some value) rk.2
      ("[" ++ rk.1 ++ "]" ++ rv.1, rv.2)
    | .interfaceType methods =>
      let r := parseFieldList methods "; " w
      ("interface\x7b" ++ r.1 ++ "\x7d", r.2)
    | .structType fields =>
      let r := parseFieldList fields "; " w
      ("struct\x7b" ++ r.1 ++ "\x7d", r.2)
    -- `ctype` is "chan", overridden to "chan<-" for SEND and "<-chan" for RECV;
    -- one equation per direction
    | .chanType .send value =>
      let r := parseExpr (some value) w
      ("chan<-" ++ " " ++ r.1, r.2)
    | .chanType .recv value =>
      let r := parseExpr (some value) w
      ("<-chan" ++ " " ++ r.1, r.2)
    | .chanType .bidi value =>
      let r := parseExpr (some value) w
      ("chan" ++ " " ++ r.1, r.2)
    | .funcType params results =>
      let rp := parseFieldList params ", " w
      let rr := parseFieldList results ", " rp.2
      ("(" ++ rp.1 ++ ") " ++ wrapIf rr.1, rr.2)
    | .basicLit value => (value, w)
    | .compositeLit ty elts =>
      let rt := parseExpr ty w
      let re := parseExprTexts elts rt.2
      (rt.1 ++ "\x7b" ++ String.intercalate ", " re.1 ++ "\x7d", re.2)
    | .ellipsis elt =>
      let r := parseExpr elt w
      ("..." ++ r.1, r.2)
    | .unary op x =>
      let r := parseExpr (some x) w
      (op ++ r.1, r.2)
    | .binary x op y =>
      let rx := parseExpr (some x) w
      let ry := parseExpr (some y) rx.2
      (rx.1 ++ " " ++ op ++ " " ++ ry.1, ry.2)
    | .index x idx =>
      let rx := parseExpr (some x) w
      let ri := parseExpr (some idx) rx.2
      (rx.1 ++ "[" ++ ri.1 ++ "]", ri.2)
    | .keyValue key value =>
      let rk := parseExpr (some key) w
      let rv := parseExpr (some value) rk.2
      (rk.1 ++ ": " ++ rv.1, rv.2)
    -- `if expr.Max == nil` … two-part slice … `else` … three-part slice
    | .slice x low high none =>
      let rx := parseExpr (some x) w
      let rl := parseExpr low rx.2
      let rh := parseExpr high rl.2
      (rx.1 ++ "[" ++ rl.1 ++ ":" ++ rh.1 ++ "]", rh.2)
    | .slice x low high (some m) =>
      let rx := parseExpr (some x) w
      let rl := parseExpr low rx.2
      let rh := parseExpr high rl.2
      let rm := parseExpr (some m) rh.2
      (rx.1 ++ "[" ++ rl.1 ++ ":" ++ rh.1 ++ ":" ++ rm.1 ++ "]", rm.2)
    | .selector x sel =>
      -- `expr.Sel` is an `*ast.Ident`, whose `parseExpr` is its name
      let rx := parseExpr (some x) w
      (rx.1 ++ "." ++ sel, rx.2)
    | .call fn args hasEllipsis =>
      let rf := parseExpr (some fn) w
      let ra := parseExprTexts args rf.2
      (rf.1 ++ "(" ++ String.intercalate ", " ra.1 ++ ifTrue "..." hasEllipsis ++ ")", ra.2)
    -- `w.exprOr(expr.Type, "type")` inlined: parse when present, else "type"
    | .typeAssert x (some t) =>
      let rx := parseExpr (some x) w
      let rt := parseExpr (some t) rx.2
      (rx.1 ++ ".(" ++ rt.1 ++ ")", rt.2)
    | .typeAssert x none =>
      let rx := parseExpr (some x) w
      (rx.1 ++ ".(" ++ "type" ++ ")", rx.2)
    | .paren x =>
      let r := parseExpr (some x) w
      ("(" ++ r.1 ++ ")", r.2)
    | .funcLit ty body =>
      let rt := parseExpr (some ty) w
      let rb := BufferVisit (some body) rt.2
      ("func" ++ rt.1 ++ " " ++ rb.1, rb.2)
    | .unknownExpr dump => ("/* Expr: " ++ dump ++ " */", w)
  termination_by e _ => (sizeOf e, 1)

def parseExprTexts : List GExpr → GoWalker → List String × GoWalker
  | [], w => ([], w)
  | e :: es, w =>
    let r := parseExpr (some e) w
    let rs := parseExprTexts es r.2
    (r.1 :: rs.1, rs.2)
  termination_by l _ => (sizeOf l, 1)
  decreasing_by
  all_goals simp_wf
  all_goals apply Prod.Lex.left
  all_goals have h1 : 0 < sizeOf es := list_sizeOf_pos es
  all_goals omega

def parseFieldList (l : Option (List GField)) (sep : String) (w : GoWalker) :
    String × GoWalker :=
  match l with
  | some fl =>
    let r := parseFieldTexts fl w
    (String.intercalate sep r.1, r.2)
  | none => ("", w)
  termination_by (sizeOf l, 2)

def parseFieldTexts : List GField → GoWalker → List String × GoWalker
  | [], w => ([], w)
  | .mk names ty :: fs, w =>
    let field0 := parseNames names
    let r := parseExpr (some ty) w
    let field := if field0.length > 0 then field0 ++ " " ++ r.1 else r.1
    let rs := parseFieldTexts fs r.2
    (field :: rs.1, rs.2)
  termination_by l _ => (sizeOf l, 1)
  decreasing_by
  all_goals simp_wf
  all_goals apply Prod.Lex.left
  all_goals have h1 : 0 < sizeOf fs := list_sizeOf_pos fs
  all_goals omega

end

/-- walker.go `parseExprList`: render each element, join with comma-space. -/
def parseExprList (l : List GExpr) (w : GoWalker) : String × GoWalker :=
  let r := parseExprTexts l w
  (String.intercalate ", " r.1, r.2)

/-! ## Generic string computation lemmas -/

theorem intercalate_one (s x : String) : String.intercalate s [x] = x := rfl

theorem intercalate_two (s x y : String) : String.intercalate s [x, y] = x ++ s ++ y := rfl

theorem intercalate_three (s x y z : String) :
    String.intercalate s [x, y, z] = x ++ s ++ y ++ s ++ z := rfl

theorem join_nil_str : String.join [] = "" := rfl

theorem toString_nat0 : toString (0 : Nat) = "0" := rfl

theorem toString_nat1 : toString (1 : Nat) = "1" := rfl

theorem toString_nat2 : toString (2 : Nat) = "2" := rfl

theorem guessType_digit0 : GuessType "0" = ("int", "0") := by decide

theorem guessType_digit1 : GuessType "1" = ("int", "1") := by decide

theorem guessType_digit2 : GuessType "2" = ("int", "2") := by decide

theorem length_lit0 : ("0" : String).length = 1 := rfl

theorem length_lit1 : ("1" : String).length = 1 := rfl

theorem length_lit2 : ("2" : String).length = 1 := rfl

/-- Chop strips exactly one trailing `", "` separator when the last name does
not end in a comma or a blank. -/
theorem chop_pair (n1 n2 : String) (c2 : Char) (rest2 : List Char)
    (hrev2 : n2.data.reverse = c2 :: rest2) (hc2 : ((", " : String).data.contains c2) = false) :
    Chop (n1 ++ (", " ++ (n2 ++ ", "))) = n1 ++ (", " ++ n2) := by
  apply String.ext
  show ((n1 ++ (", " ++ (n2 ++ ", "))).data.reverse.dropWhile
      (fun c => (", " : String).data.contains c)).reverse = _
  simp only [String.data_append, List.reverse_append,
    show (", " : String).data = [',', ' '] from rfl]
  rw [hrev2]
  simp at hc2
  simp [List.dropWhile, hc2, ← hrev2]
  have h2 := congrArg List.reverse hrev2
  simp at h2
  exact h2.symm

/-! ## Claim C10 — nil-context selector safety -/

/-- C10: when the context chain is empty (no emission context active),
`CContext.Selector` accepts the nil context and yields the explicit
qualifier `name.`, and `FormatSelector` on an object selection therefore
renders `name.sel` — the implicit-self rewrite never fires. -/
theorem C10_selector_nil_safe (p : CPrinter) (name sel : String) (h : p.ctx = []) :
    CContext.Selector none name = name ++ "." ∧
    p.FormatSelector name sel true = name ++ "." ++ sel := by
  refine ⟨rfl, ?_⟩
  simp [CPrinter.FormatSelector, CContext.Selector, h]

theorem C10_selector_nil_safe_witness :
    NewWalker.p.ctx = [] ∧
    (CContext.Selector none "pkg" = "pkg" ++ "." ∧
     NewWalker.p.FormatSelector "pkg" "x" true = "pkg" ++ "." ++ "x") :=
  ⟨rfl, C10_selector_nil_safe NewWalker.p "pkg" "x" rfl⟩

/-! ## Claim C1 — sequence constants -/

theorem c1_merge0 (x : String) :
    " = 0;\n" ++ ("const int " ++ x) = " = 0;\nconst int " ++ x := by
  have h : (" = 0;\n" ++ "const int " : String) = " = 0;\nconst int " := by decide
  rw [← String.append_assoc, h]

theorem c1_merge1 (x : String) :
    " = 1;\n" ++ ("const int " ++ x) = " = 1;\nconst int " ++ x := by
  have h : (" = 1;\n" ++ "const int " : String) = " = 1;\nconst int " := by decide
  rw [← String.append_assoc, h]

/-- C1: in a constant group that starts on a fresh context (group counter 0),
three constant names with unspecified values render with substitutes 0, 1
and 2 in order, the counter ends at 3, and a newly started group
(`PushContext`, the group boundary the spec assigns to the walker) has its
counter reset to 0. -/
theorem C1_sequence_constant_counting (p : CPrinter) (c : CContext) (cs : List CContext)
    (n1 n2 n3 : String) (hctx : p.ctx = c :: cs) (hiota : c.iota = 0)
    (hsl : p.sameline = false) (hlev : p.level = 0) :
    (p.PrintValue "const" "" n1 "" false false).out
      = p.out ++ "const int " ++ n1 ++ " = 0;\n" ∧
    ((p.PrintValue "const" "" n1 "" false false).PrintValue "const" "" n2 "" false false).out
      = (p.PrintValue "const" "" n1 "" false false).out ++ "const int " ++ n2 ++ " = 1;\n" ∧
    (((p.PrintValue "const" "" n1 "" false false).PrintValue "const" "" n2 "" false false
       ).PrintValue "const" "" n3 "" false false).out
      = ((p.PrintValue "const" "" n1 "" false false).PrintValue "const" "" n2 "" false false).out
        ++ "const int " ++ n3 ++ " = 2;\n" ∧
    ((((p.PrintValue "const" "" n1 "" false false).PrintValue "const" "" n2 "" false false
       ).PrintValue "const" "" n3 "" false false).ctx.head?.map CContext.iota) = some 3 ∧
    p.PushContext.ctx.head? = some CContext.fresh := by
  obtain ⟨lv, ml, sl, cx, o, ab⟩ := p
  obtain ⟨ci, cd, cr, crd, crv⟩ := c
  simp at hctx hiota hsl hlev
  subst hctx hiota hsl hlev
  simp [CPrinter.PrintValue, CPrinter.FormatIdent, CPrinter.PrintLevel, CPrinter.Print,
    CPrinter.indent, CPrinter.PushContext, CContext.fresh, IOTA, NIL, goRepeat,
    intercalate_three, intercalate_two, intercalate_one, join_nil_str, NONE,
    toString_nat0, toString_nat1, toString_nat2,
    guessType_digit0, guessType_digit1, guessType_digit2,
    length_lit0, length_lit1, length_lit2,
    String.append_assoc, c1_merge0, c1_merge1]

theorem C1_sequence_constant_counting_witness :
    NewWalker.p.PushContext.ctx = CContext.fresh :: [] ∧ CContext.fresh.iota = 0 ∧
    NewWalker.p.PushContext.sameline = false ∧ NewWalker.p.PushContext.level = 0 ∧
    ((NewWalker.p.PushContext.PrintValue "const" "" "A" "" false false).out
      = NewWalker.p.PushContext.out ++ "const int " ++ "A" ++ " = 0;\n" ∧
     ((NewWalker.p.PushContext.PrintValue "const" "" "A" "" false false).PrintValue
        "const" "" "B" "" false false).out
      = (NewWalker.p.PushContext.PrintValue "const" "" "A" "" false false).out
        ++ "const int " ++ "B" ++ " = 1;\n" ∧
     (((NewWalker.p.PushContext.PrintValue "const" "" "A" "" false false).PrintValue
        "const" "" "B" "" false false).PrintValue "const" "" "C" "" false false).out
      = ((NewWalker.p.PushContext.PrintValue "const" "" "A" "" false false).PrintValue
        "const" "" "B" "" false false).out ++ "const int " ++ "C" ++ " = 2;\n" ∧
     ((((NewWalker.p.PushContext.PrintValue "const" "" "A" "" false false).PrintValue
        "const" "" "B" "" false false).PrintValue "const" "" "C" "" false false
       ).ctx.head?.map CContext.iota) = some 3 ∧
     NewWalker.p.PushContext.PushContext.ctx.head? = some CContext.fresh) :=
  ⟨rfl, rfl, rfl, rfl,
   C1_sequence_constant_counting NewWalker.p.PushContext CContext.fresh [] "A" "B" "C"
     rfl rfl rfl rfl⟩

/-! ## Claim C2 — implicit receiver rewrite -/

/-- C2: `PrintFunc` with a non-empty receiver text of the shape
`type name` records `name` (the part after the first blank, the receiver's
name in the `FormatPair` rendering `value name`) in the current context;
afterwards an object member-selection on that very identifier renders with
the implicit-self idiom `this->`, while a selection on any other identifier
keeps its explicit qualifier. -/
theorem C2_receiver_rewrite (p : CPrinter) (c : CContext) (cs : List CContext)
    (receiver t nm name params results sel other : String)
    (hctx : p.ctx = c :: cs) (hr : 0 < receiver.length)
    (hsplit : splitN2 receiver ' ' = [t, nm]) (hother : other ≠ nm) :
    (p.PrintFunc receiver name params results).ctx.head? = some { c with receiver := nm } ∧
    (p.PrintFunc receiver name params results).FormatSelector nm sel true = "this->" ++ sel ∧
    (p.PrintFunc receiver name params results).FormatSelector other sel true
      = other ++ "." ++ sel := by
  obtain ⟨lv, ml, sl, cx, o, ab⟩ := p
  simp at hctx
  subst hctx
  have hne : ¬ receiver.length = 0 := by omega
  simp [CPrinter.PrintFunc, hne, hr, hsplit, CPrinter.FormatSelector, CContext.Selector,
    Ne.symm hother]

theorem C2_receiver_rewrite_witness :
    NewWalker.p.PushContext.ctx = CContext.fresh :: [] ∧
    0 < ("*Point p" : String).length ∧
    splitN2 "*Point p" ' ' = ["*Point", "p"] ∧
    ("q" : String) ≠ "p" ∧
    ((NewWalker.p.PushContext.PrintFunc "*Point p" "Move" "" "").ctx.head?
       = some { CContext.fresh with receiver := "p" } ∧
     (NewWalker.p.PushContext.PrintFunc "*Point p" "Move" "" "").FormatSelector "p" "x" true
       = "this->" ++ "x" ∧
     (NewWalker.p.PushContext.PrintFunc "*Point p" "Move" "" "").FormatSelector "q" "x" true
       = "q" ++ "." ++ "x") :=
  ⟨rfl, by decide, by decide, by decide,
   C2_receiver_rewrite NewWalker.p.PushContext CContext.fresh [] "*Point p" "*Point" "p"
     "Move" "" "" "x" "q" rfl (by decide) (by decide) (by decide)⟩

/-! ## Claim C3 — deferred-call wrappers -/

/-- C3: on a freshly pushed context the deferred counter starts at 0; two
deferred-call statements emit wrappers named `defer0` and `defer1` (distinct
generated names) and leave the monotonic counter at 2. -/
theorem C3_deferred_wrapper_names (p : CPrinter) (e1 e2 : String)
    (hsl : p.sameline = false) (hlev : p.level = 0) :
    (p.PushContext.ctx.head?.map CContext.deferred) = some 0 ∧
    ((p.PushContext.PrintStmt "defer" e1).PrintStmt "defer" e2).out
      = p.out ++ "Deferred defer0([]()\x7b " ++ e1 ++ "; \x7d);\n"
              ++ "Deferred defer1([]()\x7b " ++ e2 ++ "; \x7d);\n" ∧
    (((p.PushContext.PrintStmt "defer" e1).PrintStmt "defer" e2).ctx.head?.map
       CContext.deferred) = some 2 ∧
    ("defer0" : String) ≠ "defer1" := by
  obtain ⟨lv, ml, sl, cx, o, ab⟩ := p
  simp at hsl hlev
  subst hsl hlev
  refine ⟨rfl, ?_, rfl, by decide⟩
  simp [CPrinter.PushContext, CPrinter.PrintStmt, CPrinter.PrintLevel, CPrinter.indent,
    CContext.fresh, goRepeat, intercalate_one, join_nil_str, SEMI, String.append_assoc]
  rfl

theorem C3_deferred_wrapper_names_witness :
    NewWalker.p.sameline = false ∧ NewWalker.p.level = 0 ∧
    ((NewWalker.p.PushContext.ctx.head?.map CContext.deferred) = some 0 ∧
     ((NewWalker.p.PushContext.PrintStmt "defer" "f()").PrintStmt "defer" "g()").out
       = NewWalker.p.out ++ "Deferred defer0([]()\x7b " ++ "f()" ++ "; \x7d);\n"
               ++ "Deferred defer1([]()\x7b " ++ "g()" ++ "; \x7d);\n" ∧
     (((NewWalker.p.PushContext.PrintStmt "defer" "f()").PrintStmt "defer" "g()"
        ).ctx.head?.map CContext.deferred) = some 2 ∧
     ("defer0" : String) ≠ "defer1") :=
  ⟨rfl, rfl, C3_deferred_wrapper_names NewWalker.p "f()" "g()" rfl rfl⟩

/-! ## Claim C4 — named-result synthesis -/

theorem join_one (x : String) : String.join [x] = x := by simp [String.join]

theorem c4_merge (x : String) : "\x7b\n" ++ ("  " ++ x) = "\x7b\n  " ++ x := by
  have h : ("\x7b\n" ++ "  " : String) = "\x7b\n  " := by decide
  rw [← String.append_assoc, h]

theorem c4_merge2 (x : String) : ";\n  " ++ ("return " ++ x) = ";\n  return " ++ x := by
  have h : (";\n  " ++ "return " : String) = ";\n  return " := by decide
  rw [← String.append_assoc, h]

/-- C4: two named results `(v1 n1, v2 n2)` accumulated by `FormatPair`
(`RESULT` slots) are declared exactly once at the top of the `CODE` block:
the first `PrintBlockStart CODE` prints both declarations in order right
after the opening brace and clears the accumulator, a second
`PrintBlockStart CODE` prints only its brace, and a bare return substitutes
the accumulated names in declaration order. -/
theorem C4_named_result_synthesis (p : CPrinter) (c : CContext) (cs : List CContext)
    (v1 n1 v2 n2 : String) (c2 : Char) (rest2 : List Char)
    (hctx : p.ctx = c :: cs) (hcd : c.ret_definitions = "") (hcv : c.ret_values = "")
    (hsl : p.sameline = false) (hlev : p.level = 0)
    (hn1 : 0 < n1.length) (hn2 : 0 < n2.length)
    (hrev2 : n2.data.reverse = c2 :: rest2)
    (hc2 : ((", " : String).data.contains c2) = false)
    (hv1e : goEndsWith v1 "]" = false) (hv1s : goStartsWith v1 "*" = false)
    (hv2e : goEndsWith v2 "]" = false) (hv2s : goStartsWith v2 "*" = false) :
    (((p.FormatPair ⟨n1, v1⟩ .RESULT).2.FormatPair ⟨n2, v2⟩ .RESULT).2.PrintBlockStart .CODE).out
      = p.out ++ "\x7b\n" ++ "  " ++ v1 ++ " " ++ n1 ++ ";" ++ v2 ++ " " ++ n2 ++ ";" ++ "\n" ∧
    ((((p.FormatPair ⟨n1, v1⟩ .RESULT).2.FormatPair ⟨n2, v2⟩ .RESULT).2.PrintBlockStart
       .CODE).ctx.head?.map CContext.ret_definitions) = some "" ∧
    (((((p.FormatPair ⟨n1, v1⟩ .RESULT).2.FormatPair ⟨n2, v2⟩ .RESULT).2.PrintBlockStart
       .CODE).PrintBlockStart .CODE).out)
      = ((((p.FormatPair ⟨n1, v1⟩ .RESULT).2.FormatPair ⟨n2, v2⟩ .RESULT).2.PrintBlockStart
       .CODE).out) ++ "  \x7b\n" ∧
    ((((p.FormatPair ⟨n1, v1⟩ .RESULT).2.FormatPair ⟨n2, v2⟩ .RESULT).2.PrintBlockStart
       .CODE).PrintReturn "" false).out
      = ((((p.FormatPair ⟨n1, v1⟩ .RESULT).2.FormatPair ⟨n2, v2⟩ .RESULT).2.PrintBlockStart
       .CODE).out) ++ "  return " ++ n1 ++ ", " ++ n2 ++ ";\n" := by
  obtain ⟨lv, ml, sl, cx, o, ab⟩ := p
  obtain ⟨ci, cd, cr, crd, crv⟩ := c
  simp at hctx hcd hcv hsl hlev
  subst hctx hcd hcv hsl hlev
  simp [CPrinter.FormatPair, CPrinter.PrintBlockStart, CPrinter.PrintReturn,
    CPrinter.PrintStmt, CPrinter.PrintLevel, CPrinter.indent,
    CPrinter.UpdateLevel, CPrinter.Print, hn1, hn2, hv1e, hv1s, hv2e, hv2s,
    goRepeat, intercalate_one, intercalate_two, join_nil_str, join_one, c4_merge,
    NL, SEMI, UP, String.append_assoc, String.length_append,
    show ("return" : String).length = 6 from rfl, c4_merge2,
    chop_pair n1 n2 c2 rest2 hrev2 hc2]

theorem C4_named_result_synthesis_witness :
    NewWalker.p.PushContext.ctx = CContext.fresh :: [] ∧
    CContext.fresh.ret_definitions = "" ∧ CContext.fresh.ret_values = "" ∧
    NewWalker.p.PushContext.sameline = false ∧ NewWalker.p.PushContext.level = 0 ∧
    0 < ("a" : String).length ∧ 0 < ("b" : String).length ∧
    ("b" : String).data.reverse = 'b' :: [] ∧
    ((", " : String).data.contains 'b') = false ∧
    goEndsWith "int" "]" = false ∧ goStartsWith "int" "*" = false ∧
    goEndsWith "bool" "]" = false ∧ goStartsWith "bool" "*" = false ∧
    ((((NewWalker.p.PushContext.FormatPair ⟨"a", "int"⟩ .RESULT).2.FormatPair
        ⟨"b", "bool"⟩ .RESULT).2.PrintBlockStart .CODE).out
      = NewWalker.p.PushContext.out ++ "\x7b\n" ++ "  " ++ "int" ++ " " ++ "a" ++ ";"
        ++ "bool" ++ " " ++ "b" ++ ";" ++ "\n" ∧
     (((((NewWalker.p.PushContext.FormatPair ⟨"a", "int"⟩ .RESULT).2.FormatPair
        ⟨"b", "bool"⟩ .RESULT).2.PrintBlockStart .CODE).ctx.head?.map
          CContext.ret_definitions) = some "") ∧
     ((((((NewWalker.p.PushContext.FormatPair ⟨"a", "int"⟩ .RESULT).2.FormatPair
        ⟨"b", "bool"⟩ .RESULT).2.PrintBlockStart .CODE).PrintBlockStart .CODE).out)
      = (((((NewWalker.p.PushContext.FormatPair ⟨"a", "int"⟩ .RESULT).2.FormatPair
        ⟨"b", "bool"⟩ .RESULT).2.PrintBlockStart .CODE).out)) ++ "  \x7b\n") ∧
     ((((NewWalker.p.PushContext.FormatPair ⟨"a", "int"⟩ .RESULT).2.FormatPair
        ⟨"b", "bool"⟩ .RESULT).2.PrintBlockStart .CODE).PrintReturn "" false).out
      = (((((NewWalker.p.PushContext.FormatPair ⟨"a", "int"⟩ .RESULT).2.FormatPair
        ⟨"b", "bool"⟩ .RESULT).2.PrintBlockStart .CODE).out))
        ++ "  return " ++ "a" ++ ", " ++ "b" ++ ";\n") :=
  ⟨rfl, rfl, rfl, rfl, rfl, by decide, by decide, by decide, by decide,
   by decide, by decide, by decide, by decide,
   C4_named_result_synthesis NewWalker.p.PushContext CContext.fresh [] "int" "a" "bool" "b"
     'b' [] rfl rfl rfl rfl rfl (by decide) (by decide) (by decide) (by decide)
     (by decide) (by decide) (by decide) (by decide)⟩

/-! ## Projection lemmas: text operations never touch the indentation level -/

@[simp] theorem panicked_level (p : CPrinter) : p.panicked.level = p.level := rfl
@[simp] theorem panicked_minlevel (p : CPrinter) : p.panicked.minlevel = p.minlevel := rfl
@[simp] theorem indent_snd_level (p : CPrinter) : (p.indent).2.level = p.level := by
  unfold CPrinter.indent; split_ifs <;> rfl
@[simp] theorem indent_snd_minlevel (p : CPrinter) : (p.indent).2.minlevel = p.minlevel := by
  unfold CPrinter.indent; split_ifs <;> rfl
@[simp] theorem Print_level (p : CPrinter) (vs : List String) : (p.Print vs).level = p.level := rfl
@[simp] theorem Print_minlevel (p : CPrinter) (vs : List String) :
    (p.Print vs).minlevel = p.minlevel := rfl
@[simp] theorem PrintLevel_level (p : CPrinter) (t : String) (vs : List String) :
    (p.PrintLevel t vs).level = p.level := by
  unfold CPrinter.PrintLevel; simp
@[simp] theorem PrintLevel_minlevel (p : CPrinter) (t : String) (vs : List String) :
    (p.PrintLevel t vs).minlevel = p.minlevel := by
  unfold CPrinter.PrintLevel; simp
@[simp] theorem SameLine_level (p : CPrinter) : p.SameLine.level = p.level := rfl
@[simp] theorem SameLine_minlevel (p : CPrinter) : p.SameLine.minlevel = p.minlevel := rfl
@[simp] theorem PrintElse_level (p : CPrinter) : p.PrintElse.level = p.level := rfl
@[simp] theorem PrintElse_minlevel (p : CPrinter) : p.PrintElse.minlevel = p.minlevel := rfl
@[simp] theorem PrintEmpty_level (p : CPrinter) : p.PrintEmpty.level = p.level := by
  unfold CPrinter.PrintEmpty; simp
@[simp] theorem PrintEmpty_minlevel (p : CPrinter) : p.PrintEmpty.minlevel = p.minlevel := by
  unfold CPrinter.PrintEmpty; simp
@[simp] theorem PrintPackage_level (p : CPrinter) (s : String) :
    (p.PrintPackage s).level = p.level := by unfold CPrinter.PrintPackage; simp
@[simp] theorem PrintPackage_minlevel (p : CPrinter) (s : String) :
    (p.PrintPackage s).minlevel = p.minlevel := by unfold CPrinter.PrintPackage; simp
@[simp] theorem PrintImport_level (p : CPrinter) (a b : String) :
    (p.PrintImport a b).level = p.level := by
  unfold CPrinter.PrintImport; simp [apply_ite CPrinter.level]
@[simp] theorem PrintImport_minlevel (p : CPrinter) (a b : String) :
    (p.PrintImport a b).minlevel = p.minlevel := by
  unfold CPrinter.PrintImport; simp [apply_ite CPrinter.minlevel]
@[simp] theorem PrintType_level (p : CPrinter) (a b : String) :
    (p.PrintType a b).level = p.level := by
  unfold CPrinter.PrintType; simp [apply_ite CPrinter.level]
@[simp] theorem PrintType_minlevel (p : CPrinter) (a b : String) :
    (p.PrintType a b).minlevel = p.minlevel := by
  unfold CPrinter.PrintType; simp [apply_ite CPrinter.minlevel]
@[simp] theorem PrintValueW_level (p : CPrinter) (a b c d : String) :
    (p.PrintValueW a b c d).level = p.level := by
  unfold CPrinter.PrintValueW; simp [apply_ite CPrinter.level]
@[simp] theorem PrintValueW_minlevel (p : CPrinter) (a b c d : String) :
    (p.PrintValueW a b c d).minlevel = p.minlevel := by
  unfold CPrinter.PrintValueW; simp [apply_ite CPrinter.minlevel]
@[simp] theorem PrintFunc_level (p : CPrinter) (a b c d : String) :
    (p.PrintFunc a b c d).level = p.level := by
  unfold CPrinter.PrintFunc; (repeat' split) <;> rfl
@[simp] theorem PrintFunc_minlevel (p : CPrinter) (a b c d : String) :
    (p.PrintFunc a b c d).minlevel = p.minlevel := by
  unfold CPrinter.PrintFunc; (repeat' split) <;> rfl
@[simp] theorem PrintStmt_level (p : CPrinter) (a b : String) :
    (p.PrintStmt a b).level = p.level := by
  unfold CPrinter.PrintStmt; (repeat' split) <;> simp
@[simp] theorem PrintStmt_minlevel (p : CPrinter) (a b : String) :
    (p.PrintStmt a b).minlevel = p.minlevel := by
  unfold CPrinter.PrintStmt; (repeat' split) <;> simp
@[simp] theorem PrintIf_level (p : CPrinter) (a b : String) :
    (p.PrintIf a b).level = p.level := by
  unfold CPrinter.PrintIf; simp [apply_ite CPrinter.level]
@[simp] theorem PrintIf_minlevel (p : CPrinter) (a b : String) :
    (p.PrintIf a b).minlevel = p.minlevel := by
  unfold CPrinter.PrintIf; simp [apply_ite CPrinter.minlevel]
@[simp] theorem PrintFor_level (p : CPrinter) (a b c : String) :
    (p.PrintFor a b c).level = p.level := by
  unfold CPrinter.PrintFor; simp [apply_ite CPrinter.level]
@[simp] theorem PrintFor_minlevel (p : CPrinter) (a b c : String) :
    (p.PrintFor a b c).minlevel = p.minlevel := by
  unfold CPrinter.PrintFor; simp [apply_ite CPrinter.minlevel]
@[simp] theorem PrintSwitch_level (p : CPrinter) (a b : String) :
    (p.PrintSwitch a b).level = p.level := by
  unfold CPrinter.PrintSwitch; simp [apply_ite CPrinter.level]
@[simp] theorem PrintSwitch_minlevel (p : CPrinter) (a b : String) :
    (p.PrintSwitch a b).minlevel = p.minlevel := by
  unfold CPrinter.PrintSwitch; simp [apply_ite CPrinter.minlevel]

/-! ## The traversal invariant

`StepOK w w2` relates a walker state to any state the traversal can reach
from it without an enclosing unbalanced `UpdateLevel`: the indentation level
is restored, the minimum level never went below the entry level (nor rose),
the flush mode is restored, and — when flushing was suspended — nothing was
written to standard output. -/

def StepOK (w w2 : GoWalker) : Prop :=
  w2.p.level = w.p.level ∧
  min w.p.minlevel w.p.level ≤ w2.p.minlevel ∧
  w2.p.minlevel ≤ w.p.minlevel ∧
  w2.flush = w.flush ∧
  (w.flush = false → w2.stdout = w.stdout)

theorem stepOK_refl (w : GoWalker) : StepOK w w :=
  ⟨Eq.refl _, min_le_left _ _, le_refl _, Eq.refl _, fun _ => Eq.refl _⟩

theorem StepOK.trans {w1 w2 w3 : GoWalker} (h12 : StepOK w1 w2) (h23 : StepOK w2 w3) :
    StepOK w1 w3 := by
  obtain ⟨a1, b1, c1, d1, e1⟩ := h12
  obtain ⟨a2, b2, c2, d2, e2⟩ := h23
  refine ⟨by rw [a2, a1], ?_, ?_, by rw [d2, d1], ?_⟩
  · rw [a1] at b2
    omega
  · omega
  · intro hf
    rw [e2 (by rw [d1, hf]), e1 hf]

theorem stepOK_onP {f : CPrinter → CPrinter} (w : GoWalker)
    (hl : (f w.p).level = w.p.level) (hm : (f w.p).minlevel = w.p.minlevel) :
    StepOK w (w.onP f) := by
  refine ⟨hl, ?_, ?_, rfl, fun _ => rfl⟩
  · show _ ≤ (f w.p).minlevel
    rw [hm]
    exact min_le_left _ _
  · show (f w.p).minlevel ≤ _
    rw [hm]

theorem stepOK_Flush (w : GoWalker) : StepOK w w.Flush := by
  unfold GoWalker.Flush
  split_ifs with h
  · exact ⟨rfl, min_le_left _ _, le_refl _, rfl, fun hf => by simp [hf] at h⟩
  · exact stepOK_refl w

/-- An `UpdateLevel UP` … steps … `UpdateLevel DOWN` sandwich keeps the
invariant as long as the middle keeps it. -/
theorem stepOK_sandwich {w : GoWalker} (mid : GoWalker → GoWalker)
    (hmid : ∀ x, StepOK x (mid x)) :
    StepOK w ((mid (w.onP (fun p => p.UpdateLevel UP))).onP
      (fun p => p.UpdateLevel DOWN)) := by
  obtain ⟨a, b, c, d, e⟩ := hmid (w.onP (fun p => p.UpdateLevel UP))
  simp only [GoWalker.onP, CPrinter.UpdateLevel, UP, DOWN] at a b c d e
  simp at a b c d e
  refine ⟨?_, ?_, ?_, ?_, ?_⟩ <;>
    simp only [GoWalker.onP, CPrinter.UpdateLevel, UP, DOWN] <;>
    (try simp) <;> (try omega) <;> (first | exact d | exact e)

/-! ## The traversal satisfies the invariant -/

theorem StepOK.withParent {w x : GoWalker} (q : Option GNode) (h : StepOK w x) :
    StepOK w { p := x.p, stdout := x.stdout, flush := x.flush, parent := q } := h

theorem stepOK_setParent (w : GoWalker) (q : Option GNode) :
    StepOK w { w with parent := q } :=
  ⟨Eq.refl _, min_le_left _ _, le_refl _, Eq.refl _, fun _ => Eq.refl _⟩

mutual

theorem Visit_stepOK (n : Option GNode) (w : GoWalker) : StepOK w (Visit n w) := by
  match n with
  | none =>
    simp only [Visit]
    exact stepOK_refl w
  | some nd =>
    cases nd with
    | file name decls =>
      simp only [Visit]
      refine StepOK.withParent _ ?_
      refine StepOK.trans ?_ (stepOK_Flush _)
      refine StepOK.trans ?_ (visitList_stepOK decls _)
      refine StepOK.trans ?_ (stepOK_onP _ (by simp) (by simp))
      exact stepOK_setParent w _
    | importSpec name path =>
      simp only [Visit]
      refine StepOK.withParent _ ?_
      refine StepOK.trans ?_ (stepOK_Flush _)
      refine StepOK.trans ?_ (stepOK_onP _ (by simp) (by simp))
      exact stepOK_setParent w _
    | typeSpec name ty =>
      simp only [Visit]
      refine StepOK.withParent _ ?_
      refine StepOK.trans ?_ (stepOK_Flush _)
      refine StepOK.trans ?_ (stepOK_onP _ (by simp) (by simp))
      refine StepOK.trans ?_ (parseExpr_stepOK (some ty) _)
      exact stepOK_setParent w _
    | valueSpec names ty vals =>
      simp only [Visit]
      cases hgd : genDeclTok w.parent with
      | some tok =>
        refine StepOK.withParent _ ?_
        refine StepOK.trans ?_ (stepOK_Flush _)
        refine StepOK.trans ?_ (stepOK_onP _ (by simp) (by simp))
        refine StepOK.trans ?_ (parseExprTexts_stepOK vals _)
        refine StepOK.trans ?_ (parseExpr_stepOK ty _)
        exact stepOK_setParent w _
      | none =>
        refine StepOK.withParent _ ?_
        refine StepOK.trans ?_ (stepOK_Flush _)
        refine StepOK.trans ?_ (stepOK_onP _ (by simp) (by simp))
        exact stepOK_setParent w _
    | genDecl tok specs =>
      simp only [Visit]
      refine StepOK.withParent _ ?_
      refine StepOK.trans ?_ (stepOK_Flush _)
      refine StepOK.trans ?_ (visitList_stepOK specs _)
      exact stepOK_setParent w _
    | funcDecl recv name params results body =>
      simp only [Visit]
      refine StepOK.withParent _ ?_
      refine StepOK.trans ?_ (stepOK_Flush _)
      refine StepOK.trans ?_ (stepOK_onP _ (by simp) (by simp))
      refine StepOK.trans ?_ (Visit_stepOK (some body) _)
      refine StepOK.trans ?_ (stepOK_onP _ (by simp) (by simp))
      refine StepOK.trans ?_ (parseFieldList_stepOK results ", " _)
      refine StepOK.trans ?_ (parseFieldList_stepOK params ", " _)
      refine StepOK.trans ?_ (parseFieldList_stepOK recv ", " _)
      exact stepOK_setParent w _
    | block stmts =>
      simp only [Visit]
      refine StepOK.withParent _ ?_
      refine StepOK.trans ?_ (stepOK_Flush _)
      refine StepOK.trans ?_ (stepOK_onP _ (by simp) (by simp))
      refine StepOK.trans ?_
        (stepOK_sandwich (visitList stmts) (fun x => visitList_stepOK stmts x))
      refine StepOK.trans ?_ (stepOK_onP _ (by simp) (by simp))
      exact stepOK_setParent w _
    | ifStmt ini cond body els =>
      simp only [Visit]
      cases els with
      | some e =>
        refine StepOK.withParent _ ?_
        refine StepOK.trans ?_ (stepOK_Flush _)
        refine StepOK.trans ?_ (stepOK_onP _ (by simp) (by simp))
        refine StepOK.trans ?_ (Visit_stepOK (some e) _)
        refine StepOK.trans ?_ (stepOK_onP _ (by simp) (by simp))
        refine StepOK.trans ?_ (stepOK_onP _ (by simp) (by simp))
        refine StepOK.trans ?_ (Visit_stepOK (some body) _)
        refine StepOK.trans ?_ (stepOK_onP _ (by simp) (by simp))
        refine StepOK.trans ?_ (parseExpr_stepOK (some cond) _)
        refine StepOK.trans ?_ (bufferVisit_stepOK ini _)
        exact stepOK_setParent w _
      | none =>
        refine StepOK.withParent _ ?_
        refine StepOK.trans ?_ (stepOK_Flush _)
        refine StepOK.trans ?_ (stepOK_onP _ (by simp) (by simp))
        refine StepOK.trans ?_ (Visit_stepOK (some body) _)
        refine StepOK.trans ?_ (stepOK_onP _ (by simp) (by simp))
        refine StepOK.trans ?_ (parseExpr_stepOK (some cond) _)
        refine StepOK.trans ?_ (bufferVisit_stepOK ini _)
        exact stepOK_setParent w _
    | forStmt ini cond post body =>
      simp only [Visit]
      refine StepOK.withParent _ ?_
      refine StepOK.trans ?_ (stepOK_Flush _)
      refine StepOK.trans ?_ (stepOK_onP _ (by simp) (by simp))
      refine StepOK.trans ?_ (Visit_stepOK (some body) _)
      refine StepOK.trans ?_ (stepOK_onP _ (by simp) (by simp))
      refine StepOK.trans ?_ (bufferVisit_stepOK post _)
      refine StepOK.trans ?_ (parseExpr_stepOK cond _)
      refine StepOK.trans ?_ (bufferVisit_stepOK ini _)
      exact stepOK_setParent w _
    | switchStmt ini tag body =>
      simp only [Visit]
      refine StepOK.withParent _ ?_
      refine StepOK.trans ?_ (stepOK_Flush _)
      refine StepOK.trans ?_ (stepOK_onP _ (by simp) (by simp))
      refine StepOK.trans ?_ (Visit_stepOK (some body) _)
      refine StepOK.trans ?_ (stepOK_onP _ (by simp) (by simp))
      refine StepOK.trans ?_ (parseExpr_stepOK tag _)
      refine StepOK.trans ?_ (bufferVisit_stepOK ini _)
      exact stepOK_setParent w _
    | typeSwitchStmt ini assign body =>
      simp only [Visit]
      refine StepOK.withParent _ ?_
      refine StepOK.trans ?_ (stepOK_Flush _)
      refine StepOK.trans ?_ (stepOK_onP _ (by simp) (by simp))
      refine StepOK.trans ?_ (Visit_stepOK (some body) _)
      refine StepOK.trans ?_ (stepOK_onP _ (by simp) (by simp))
      refine StepOK.trans ?_ (bufferVisit_stepOK assign _)
      refine StepOK.trans ?_ (bufferVisit_stepOK ini _)
      exact stepOK_setParent w _
    | caseClause list body =>
      simp only [Visit]
      by_cases hl : list.length > 0
      · simp only [hl, if_true]
        refine StepOK.withParent _ ?_
        refine StepOK.trans ?_ (stepOK_Flush _)
        refine StepOK.trans ?_
          (stepOK_sandwich (visitList body) (fun x => visitList_stepOK body x))
        refine StepOK.trans ?_ (stepOK_onP _ (by simp) (by simp))
        refine StepOK.trans ?_ (parseExprTexts_stepOK list _)
        exact stepOK_setParent w _
      · simp only [hl, if_false]
        refine StepOK.withParent _ ?_
        refine StepOK.trans ?_ (stepOK_Flush _)
        refine StepOK.trans ?_
          (stepOK_sandwich (visitList body) (fun x => visitList_stepOK body x))
        refine StepOK.trans ?_ (stepOK_onP _ (by simp) (by simp))
        exact stepOK_setParent w _
    | rangeStmt key value x body =>
      simp only [Visit]
      refine StepOK.withParent _ ?_
      refine StepOK.trans ?_ (stepOK_Flush _)
      refine StepOK.trans ?_ (stepOK_onP _ (by simp) (by simp))
      refine StepOK.trans ?_ (Visit_stepOK (some body) _)
      refine StepOK.trans ?_ (stepOK_onP _ (by simp) (by simp))
      refine StepOK.trans ?_ (parseExpr_stepOK (some x) _)
      refine StepOK.trans ?_ (parseExpr_stepOK value _)
      refine StepOK.trans ?_ (parseExpr_stepOK key _)
      exact stepOK_setParent w _
    | branchStmt tok label =>
      simp only [Visit]
      refine StepOK.withParent _ ?_
      refine StepOK.trans ?_ (stepOK_Flush _)
      refine StepOK.trans ?_ (stepOK_onP _ (by simp) (by simp))
      exact stepOK_setParent w _
    | deferStmt callx =>
      simp only [Visit]
      refine StepOK.withParent _ ?_
      refine StepOK.trans ?_ (stepOK_Flush _)
      refine StepOK.trans ?_ (stepOK_onP _ (by simp) (by simp))
      refine StepOK.trans ?_ (parseExpr_stepOK (some callx) _)
      exact stepOK_setParent w _
    | goStmt callx =>
      simp only [Visit]
      refine StepOK.withParent _ ?_
      refine StepOK.trans ?_ (stepOK_Flush _)
      refine StepOK.trans ?_ (stepOK_onP _ (by simp) (by simp))
      refine StepOK.trans ?_ (parseExpr_stepOK (some callx) _)
      exact stepOK_setParent w _
    | returnStmt results =>
      simp only [Visit]
      refine StepOK.withParent _ ?_
      refine StepOK.trans ?_ (stepOK_Flush _)
      refine StepOK.trans ?_ (stepOK_onP _ (by simp) (by simp))
      refine StepOK.trans ?_ (parseExprTexts_stepOK results _)
      exact stepOK_setParent w _
    | exprStmt x =>
      simp only [Visit]
      refine StepOK.withParent _ ?_
      refine StepOK.trans ?_ (stepOK_Flush _)
      refine StepOK.trans ?_ (stepOK_onP _ (by simp) (by simp))
      refine StepOK.trans ?_ (parseExpr_stepOK (some x) _)
      exact stepOK_setParent w _
    | declStmt decl =>
      simp only [Visit]
      refine StepOK.withParent _ ?_
      refine StepOK.trans ?_ (stepOK_Flush _)
      refine StepOK.trans ?_ (Visit_stepOK (some decl) _)
      exact stepOK_setParent w _
    | assignStmt lhs tok rhs =>
      simp only [Visit]
      refine StepOK.withParent _ ?_
      refine StepOK.trans ?_ (stepOK_Flush _)
      refine StepOK.trans ?_ (stepOK_onP _ (by simp) (by simp))
      refine StepOK.trans ?_ (parseExprTexts_stepOK rhs _)
      refine StepOK.trans ?_ (parseExprTexts_stepOK lhs _)
      exact stepOK_setParent w _
    | incDecStmt x tok =>
      simp only [Visit]
      refine StepOK.withParent _ ?_
      refine StepOK.trans ?_ (stepOK_Flush _)
      refine StepOK.trans ?_ (stepOK_onP _ (by simp) (by simp))
      refine StepOK.trans ?_ (parseExpr_stepOK (some x) _)
      exact stepOK_setParent w _
    | emptyStmt =>
      simp only [Visit]
      refine StepOK.withParent _ ?_
      refine StepOK.trans ?_ (stepOK_Flush _)
      refine StepOK.trans ?_ (stepOK_onP _ (by simp) (by simp))
      exact stepOK_setParent w _
    | unknownNode dump =>
      simp only [Visit]
      refine StepOK.withParent _ ?_
      refine StepOK.trans ?_ (stepOK_Flush _)
      refine StepOK.trans ?_ (stepOK_onP _ (by simp) (by simp))
      exact stepOK_setParent w _
  termination_by (sizeOf n, 1)

theorem visitList_stepOK (l : List GNode) (w : GoWalker) : StepOK w (visitList l w) := by
  match l with
  | [] =>
    simp only [visitList]
    exact stepOK_refl w
  | n :: ns =>
    simp only [visitList]
    exact StepOK.trans (Visit_stepOK (some n) w) (visitList_stepOK ns _)
  termination_by (sizeOf l, 1)
  decreasing_by
  all_goals simp_wf
  all_goals apply Prod.Lex.left
  all_goals have h1 : 0 < sizeOf ns := list_sizeOf_pos ns
  all_goals omega

theorem bufferVisit_stepOK (n : Option GNode) (w : GoWalker) :
    StepOK w (BufferVisit n w).2 := by
  have h1 : StepOK w w.Flush := stepOK_Flush w
  have h2 : StepOK { w.Flush with flush := false }
      (Visit n { w.Flush with flush := false }) := Visit_stepOK n _
  simp only [BufferVisit]
  obtain ⟨a1, b1, c1, d1, e1⟩ := h1
  obtain ⟨a2, b2, c2, d2, e2⟩ := h2
  simp only at a2 b2 c2 d2 e2
  split
  · refine ⟨?_, ?_, ?_, ?_, ?_⟩ <;> simp only
    · rw [a2, a1]
    · rw [a1] at b2
      omega
    · omega
    · exact d1
    · intro hf
      rw [e2 (by simp), e1 hf]
  · refine ⟨?_, ?_, ?_, ?_, ?_⟩ <;> simp only
    · rw [a2, a1]
    · rw [a1] at b2
      omega
    · omega
    · exact d1
    · intro hf
      rw [e2 (by simp), e1 hf]
  termination_by (sizeOf n, 2)

theorem parseExpr_stepOK (e : Option GExpr) (w : GoWalker) : StepOK w (parseExpr e w).2 := by
  match e with
  | none =>
    simp only [parseExpr]
    exact stepOK_refl w
  | some ex =>
    cases ex with
    | ident name =>
      simp only [parseExpr]
      exact stepOK_refl w
    | star x =>
      simp only [parseExpr]
      exact parseExpr_stepOK (some x) w
    | arrayType len elt =>
      simp only [parseExpr]
      exact StepOK.trans (parseExpr_stepOK len w) (parseExpr_stepOK (some elt) _)
    | mapType key value =>
      simp only [parseExpr]
      exact StepOK.trans (parseExpr_stepOK (some key) w) (parseExpr_stepOK (some value) _)
    | interfaceType methods =>
      simp only [parseExpr]
      exact parseFieldList_stepOK methods "; " w
    | structType fields =>
      simp only [parseExpr]
      exact parseFieldList_stepOK fields "; " w
    | chanType dir value =>
      cases dir <;> simp only [parseExpr] <;> exact parseExpr_stepOK (some value) w
    | funcType params results =>
      simp only [parseExpr]
      exact StepOK.trans (parseFieldList_stepOK params ", " w)
        (parseFieldList_stepOK results ", " _)
    | basicLit value =>
      simp only [parseExpr]
      exact stepOK_refl w
    | compositeLit ty elts =>
      simp only [parseExpr]
      exact StepOK.trans (parseExpr_stepOK ty w) (parseExprTexts_stepOK elts _)
    | ellipsis elt =>
      simp only [parseExpr]
      exact parseExpr_stepOK elt w
    | unary op x =>
      simp only [parseExpr]
      exact parseExpr_stepOK (some x) w
    | binary x op y =>
      simp only [parseExpr]
      exact StepOK.trans (parseExpr_stepOK (some x) w) (parseExpr_stepOK (some y) _)
    | index x idx =>
      simp only [parseExpr]
      exact StepOK.trans (parseExpr_stepOK (some x) w) (parseExpr_stepOK (some idx) _)
    | keyValue key value =>
      simp only [parseExpr]
      exact StepOK.trans (parseExpr_stepOK (some key) w) (parseExpr_stepOK (some value) _)
    | slice x low high max =>
      cases max with
      | none =>
        simp only [parseExpr]
        exact StepOK.trans
          (StepOK.trans (parseExpr_stepOK (some x) w) (parseExpr_stepOK low _))
          (parseExpr_stepOK high _)
      | some m =>
        simp only [parseExpr]
        exact StepOK.trans
          (StepOK.trans
            (StepOK.trans (parseExpr_stepOK (some x) w) (parseExpr_stepOK low _))
            (parseExpr_stepOK high _))
          (parseExpr_stepOK (some m) _)
    | selector x sel =>
      simp only [parseExpr]
      exact parseExpr_stepOK (some x) w
    | call fn args hasEllipsis =>
      simp only [parseExpr]
      exact StepOK.trans (parseExpr_stepOK (some fn) w) (parseExprTexts_stepOK args _)
    | typeAssert x ty =>
      cases ty with
      | some t =>
        simp only [parseExpr]
        exact StepOK.trans (parseExpr_stepOK (some x) w) (parseExpr_stepOK (some t) _)
      | none =>
        simp only [parseExpr]
        exact parseExpr_stepOK (some x) w
    | paren x =>
      simp only [parseExpr]
      exact parseExpr_stepOK (some x) w
    | funcLit ty body =>
      simp only [parseExpr]
      exact StepOK.trans (parseExpr_stepOK (some ty) w) (bufferVisit_stepOK (some body) _)
    | unknownExpr dump =>
      simp only [parseExpr]
      exact stepOK_refl w
  termination_by (sizeOf e, 1)

theorem parseExprTexts_stepOK (l : List GExpr) (w : GoWalker) :
    StepOK w (parseExprTexts l w).2 := by
  match l with
  | [] =>
    simp only [parseExprTexts]
    exact stepOK_refl w
  | e :: es =>
    simp only [parseExprTexts]
    exact StepOK.trans (parseExpr_stepOK (some e) w) (parseExprTexts_stepOK es _)
  termination_by (sizeOf l, 1)
  decreasing_by
  all_goals simp_wf
  all_goals apply Prod.Lex.left
  all_goals have h1 : 0 < sizeOf es := list_sizeOf_pos es
  all_goals omega

theorem parseFieldList_stepOK (l : Option (List GField)) (sep : String) (w : GoWalker) :
    StepOK w (parseFieldList l sep w).2 := by
  match l with
  | some fl =>
    simp only [parseFieldList]
    exact parseFieldTexts_stepOK fl w
  | none =>
    simp only [parseFieldList]
    exact stepOK_refl w
  termination_by (sizeOf l, 2)

theorem parseFieldTexts_stepOK (l : List GField) (w : GoWalker) :
    StepOK w (parseFieldTexts l w).2 := by
  match l with
  | [] =>
    simp only [parseFieldTexts]
    exact stepOK_refl w
  | .mk names ty :: fs =>
    simp only [parseFieldTexts]
    exact StepOK.trans (parseExpr_stepOK (some ty) w) (parseFieldTexts_stepOK fs _)
  termination_by (sizeOf l, 1)
  decreasing_by
  all_goals simp_wf
  all_goals apply Prod.Lex.left
  all_goals have h1 : 0 < sizeOf fs := list_sizeOf_pos fs
  all_goals omega

end

/-! ## Claim C7 — indentation balance -/

/-- C7: traversing any node (in particular any nested-block input) restores
the printer's indentation level exactly, and — starting from a state whose
level and recorded minimum are non-negative — the minimum level ever
assigned during the traversal stays non-negative: the level never goes
negative and post-traversal indentation equals pre-traversal indentation. -/
theorem C7_indentation_balance (n : Option GNode) (w : GoWalker)
    (h0 : 0 ≤ w.p.level) (hm : 0 ≤ w.p.minlevel) :
    (Visit n w).p.level = w.p.level ∧
    0 ≤ (Visit n w).p.minlevel ∧
    (Visit n w).p.minlevel ≤ w.p.minlevel := by
  obtain ⟨a, b, c, d, e⟩ := Visit_stepOK n w
  refine ⟨a, ?_, c⟩
  omega

theorem C7_indentation_balance_witness :
    0 ≤ NewWalker.p.level ∧ 0 ≤ NewWalker.p.minlevel ∧
    ((Visit (some (.block [.emptyStmt, .block [.emptyStmt]])) NewWalker).p.level
       = NewWalker.p.level ∧
     0 ≤ (Visit (some (.block [.emptyStmt, .block [.emptyStmt]])) NewWalker).p.minlevel ∧
     (Visit (some (.block [.emptyStmt, .block [.emptyStmt]])) NewWalker).p.minlevel
       ≤ NewWalker.p.minlevel) :=
  ⟨by decide, by decide,
   C7_indentation_balance (some (.block [.emptyStmt, .block [.emptyStmt]])) NewWalker
     (by decide) (by decide)⟩

/-! ## Claim C8 — unhandled kinds produce visible placeholders -/

/-- The full live output: what reached stdout plus what is still buffered. -/
def liveText (w : GoWalker) : String := w.stdout ++ w.p.out

/-- C8: a node kind the walker does not handle emits exactly the tagged
placeholder `/* Node: … */` (with its structural dump) into the live output
and never panics (the aborted flag is untouched, traversal goes on), and an
expression kind the formatter does not handle returns exactly the tagged
placeholder `/* Expr: … */` with the state unchanged. -/
theorem C8_unhandled_placeholder (d : String) (w : GoWalker) :
    liveText (Visit (some (.unknownNode d)) w)
      = liveText w ++ "/* Node: " ++ d ++ " */\n" ∧
    (Visit (some (.unknownNode d)) w).p.aborted = w.p.aborted ∧
    parseExpr (some (.unknownExpr d)) w = ("/* Expr: " ++ d ++ " */", w) := by
  refine ⟨?_, ?_, by simp [parseExpr]⟩ <;>
    simp only [Visit, GoWalker.onP, GoWalker.Flush, CPrinter.Print, liveText] <;>
    split_ifs <;> simp [String.append_assoc, intercalate_one]

/-! ## Claim C9 — absent children and list joins -/

theorem intercalate_nil (s : String) : String.intercalate s [] = "" := rfl

/-- C9: a nil child renders as the empty string with the state untouched
(never a crash or a placeholder) — both in the expression formatter and in
`identString` — and `parseExprList` joins the rendered elements with a
single comma-space separator, preserving the input order. -/
theorem C9_absent_children_and_list_joins (w : GoWalker) (e1 e2 : GExpr) :
    parseExpr none w = ("", w) ∧
    identString none = "" ∧
    (parseExprList [] w).1 = "" ∧
    (parseExprList [e1] w).1 = (parseExpr (some e1) w).1 ∧
    (parseExprList [e1, e2] w).1
      = (parseExpr (some e1) w).1 ++ ", "
        ++ (parseExpr (some e2) (parseExpr (some e1) w).2).1 := by
  refine ⟨by simp [parseExpr], rfl, ?_, ?_, ?_⟩ <;>
    simp [parseExprList, parseExprTexts, intercalate_nil, intercalate_one,
      intercalate_two]

/-! ## Claim C6 — capture isolation -/

theorem Flush_eq_of_flush (w : GoWalker) (hf : w.flush = true) :
    w.Flush = { w with stdout := w.stdout ++ w.p.out, p := { w.p with out := "" } } := by
  obtain ⟨⟨lv, ml, sl, cx, o, ab⟩, so, fl, pa⟩ := w
  simp at hf
  subst hf
  unfold GoWalker.Flush
  by_cases h : 0 < o.length
  · simp [h]
  · have hlen : o.length = 0 := by omega
    have hemp : o = "" := by
      apply String.ext
      have hd : o.data.length = 0 := hlen
      simpa using List.eq_nil_of_length_eq_zero hd
    subst hemp
    simp

theorem strLength_data (s : String) : s.length = s.data.length := rfl

/-- Number of (possibly overlapping) occurrences of `pat` in `s`. -/
def countSub (s pat : String) : Nat :=
  ((List.range (s.data.length + 1)).filter
    (fun i => pat.data.isPrefixOf (s.data.drop i))).length

/-- A loop with a non-empty initializer, condition and post statement
(`for i := 0; i < 3; i++ {}`). -/
def C6tree : GNode :=
  .forStmt (some (.assignStmt [.ident "i"] ":=" [.basicLit "0"]))
    (some (.binary (.ident "i") "<" (.basicLit "3")))
    (some (.incDecStmt (.ident "i") "++"))
    (.block [])

set_option maxRecDepth 4096

/-- C6: from a live state, capturing a subtree (1) flushes only the text
already buffered and writes nothing of the captured subtree to stdout,
(2) discards the isolated buffer, (3) restores the prior flushing mode, and
(4) returns the whitespace-trimmed text of the subtree rendered through the
same `Visit` path into an isolated empty buffer; moreover (5, 6) the walked
`for` loop with a non-empty initializer shows that initializer's text
exactly once in the live output, inside the combined header. -/
theorem C6_capture_isolation (n : GNode) (w : GoWalker) (hf : w.flush = true) :
    (BufferVisit (some n) w).2.stdout = w.stdout ++ w.p.out ∧
    (BufferVisit (some n) w).2.p.out = "" ∧
    (BufferVisit (some n) w).2.flush = true ∧
    (BufferVisit (some n) w).1
      = trimSpace ((Visit (some n)
          { w with stdout := w.stdout ++ w.p.out, flush := false,
                   p := { w.p with out := "" } }).p.out) ∧
    (Visit (some C6tree) NewWalker).stdout = "for (:= 0 \ni; i < 3; i++) \x7b\n\x7d\n" ∧
    countSub "for (:= 0 \ni; i < 3; i++) \x7b\n\x7d\n" ":= 0 \ni" = 1 := by
  have hfe := Flush_eq_of_flush w hf
  obtain ⟨a, b, c, d, e⟩ := Visit_stepOK (some n)
      { w with stdout := w.stdout ++ w.p.out, flush := false, p := { w.p with out := "" } }
  refine ⟨?_, ?_, ?_, ?_, ?_, by decide⟩
  · simp only [BufferVisit, hfe, hf]
    simp only at d e
    simp [d, e (by simp)]
  · simp only [BufferVisit, hfe, hf]
    simp only at d e
    simp [d, e (by simp)]
  · simp only [BufferVisit, hfe, hf]
    simp only at d e
    simp [d, e (by simp)]
  · simp only [BufferVisit, hfe, hf]
    simp only at d e
    simp [d, e (by simp)]
  · simp [C6tree, Visit, visitList, parseExpr, parseExprTexts, BufferVisit, NewWalker,
      GoWalker.Flush, GoWalker.onP, CPrinter.PrintFor, CPrinter.PrintLevel, CPrinter.Print,
      CPrinter.indent, CPrinter.UpdateLevel, goRepeat, trimSpace, trimRightCut, goIsSpace,
      intercalate_nil, intercalate_one, intercalate_two, intercalate_three, join_nil_str,
      join_one, NONE, SEMI, NL, UP, DOWN, String.append_assoc, strLength_data]

theorem C6_capture_isolation_witness :
    NewWalker.flush = true ∧
    ((BufferVisit (some (.block [])) NewWalker).2.stdout
       = NewWalker.stdout ++ NewWalker.p.out ∧
     (BufferVisit (some (.block [])) NewWalker).2.p.out = "" ∧
     (BufferVisit (some (.block [])) NewWalker).2.flush = true ∧
     (BufferVisit (some (.block [])) NewWalker).1
       = trimSpace ((Visit (some (.block []))
           { NewWalker with stdout := NewWalker.stdout ++ NewWalker.p.out, flush := false,
                            p := { NewWalker.p with out := "" } }).p.out) ∧
     (Visit (some C6tree) NewWalker).stdout = "for (:= 0 \ni; i < 3; i++) \x7b\n\x7d\n" ∧
     countSub "for (:= 0 \ni; i < 3; i++) \x7b\n\x7d\n" ":= 0 \ni" = 1) :=
  ⟨rfl, C6_capture_isolation (.block []) NewWalker rfl⟩

/-! ## Claim C5 — multi-result return -/

/-- `func f() (int, string) { return x, y }`. -/
def C5tree : GNode :=
  .funcDecl none "f" (some []) (some [.mk [] (.ident "int"), .mk [] (.ident "string")])
    (.block [.returnStmt [.ident "x", .ident "y"]])

/-- C5: the function header does carry the aggregate result type
`tuple<int, string>`, but the walker's `ReturnStmt` case routes `return x, y`
through `PrintStmt` instead of `PrintReturn`, so the emitted return is the
bare `return x, y;` and no `make_tuple` aggregate construction ever appears
in the output — even though the `CPrinter`'s own `PrintReturn` with the
tuple flag would have produced `return make_tuple(x, y);`. -/
theorem C5_return_not_aggregated :
    (Visit (some C5tree) NewWalker).stdout
      = "tuple<int, string> f() \x7b\n  return x, y;\n\x7d\n" ∧
    containsSub "tuple<int, string> f() \x7b\n  return x, y;\n\x7d\n" "make_tuple" = false ∧
    (NewWalker.p.PrintReturn "x, y" true).out = "return make_tuple(x, y);\n" := by
  refine ⟨?_, by decide, by decide⟩
  simp [C5tree, Visit, visitList, parseExpr, parseExprTexts, parseFieldList,
    parseFieldTexts, parseNames, NewWalker, GoWalker.Flush, GoWalker.onP,
    CPrinter.PrintFunc, CPrinter.PrintStmt, CPrinter.PrintLevel, CPrinter.Print,
    CPrinter.indent, CPrinter.UpdateLevel, goRepeat, IsMultiValue, containsChar,
    intercalate_nil, intercalate_one, intercalate_two, join_nil_str, join_one,
    NONE, SEMI, NL, UP, DOWN, String.append_assoc, strLength_data]
